import Mathlib

/-!
# Verification of the device lifecycle orchestration engine

Shallow embedding of the Python backend (`src/backend`) of the
android-remote-vm repository: the port allocator, the device start/stop
paths, the boot readiness gate, the reaper loops, the session API and the
WebRTC signaling coordinator, together with theorems settling the spec
claims about them.
-/

set_option maxHeartbeats 1000000

/-! ## Port allocator (`services/vm_manager.py`, class `PortAllocator`)

The Python class keeps a set `allocated_ports` and a forward-moving cursor
`current_port` starting at `settings.WEBRTC_PORT_RANGE_START`.
`allocate_port` scans from the cursor up to `settings.WEBRTC_PORT_RANGE_END`
for the first unallocated number; `free_port` removes the mark if present.
The range end is read from settings at each call, so it is a parameter of
the Lean functions. -/

structure PortAllocator where
  allocated_ports : Finset Nat
  current_port : Nat
deriving DecidableEq

/-- Constructor `PortAllocator.__init__`: empty allocation set, cursor at the range start. -/
def PortAllocator.init (rangeStart : Nat) : PortAllocator :=
  { allocated_ports := ∅, current_port := rangeStart }

/-- The scanning loop of `allocate_port`: starting at `cur`, find the first
number `≤ rangeEnd` not in `allocated`; return the port, the updated set
and the updated cursor, or `none` when the loop falls off the end
(the Python code then raises "No available ports in range"). -/
def allocateScan (rangeEnd : Nat) (allocated : Finset Nat) (cur : Nat) :
    Option (Nat × Finset Nat × Nat) :=
  if cur ≤ rangeEnd then
    if cur ∈ allocated then
      allocateScan rangeEnd allocated (cur + 1)
    else
      some (cur, insert cur allocated, cur + 1)
  else
    none
termination_by rangeEnd + 1 - cur

/-- Method `PortAllocator.allocate_port`; `none` models the raised exception. -/
def PortAllocator.allocate_port (s : PortAllocator) (rangeEnd : Nat) :
    Option (Nat × PortAllocator) :=
  match allocateScan rangeEnd s.allocated_ports s.current_port with
  | some (p, alloc, cur) => some (p, { allocated_ports := alloc, current_port := cur })
  | none => none

/-- Method `PortAllocator.free_port`: remove the mark only when present. -/
def PortAllocator.free_port (s : PortAllocator) (port : Nat) : PortAllocator :=
  if port ∈ s.allocated_ports then
    { s with allocated_ports := s.allocated_ports.erase port }
  else
    s

/-! Traces of allocator calls, for the sequence-quantified claims. -/

inductive AllocOp where
  | alloc : AllocOp
  | free : Nat → AllocOp
deriving DecidableEq

/-- One step of a call trace. The second component is the ghost list of
outstanding allocations: ports returned by a successful `allocate_port`
and not freed since. -/
def traceStep (rangeEnd : Nat) (st : PortAllocator × List Nat) (op : AllocOp) :
    PortAllocator × List Nat :=
  match op with
  | .alloc =>
    match st.1.allocate_port rangeEnd with
    | some (p, s') => (s', st.2 ++ [p])
    | none => st
  | .free p => (st.1.free_port p, st.2.erase p)

/-- Run a sequence of allocate/free calls on a freshly constructed allocator. -/
def traceRun (rangeStart rangeEnd : Nat) (ops : List AllocOp) : PortAllocator × List Nat :=
  ops.foldl (traceStep rangeEnd) (PortAllocator.init rangeStart, [])

/-- Iterate `allocate_port`; `none` as soon as one call raises. -/
def allocateN (rangeEnd : Nat) : Nat → PortAllocator → Option PortAllocator
  | 0, s => some s
  | k + 1, s =>
    match s.allocate_port rangeEnd with
    | some (_, s') => allocateN rangeEnd k s'
    | none => none

/-! ### Allocator lemmas -/

theorem allocateScan_some {rangeEnd : Nat} {allocated : Finset Nat} {cur : Nat}
    {p : Nat} {alloc' : Finset Nat} {cur' : Nat}
    (h : allocateScan rangeEnd allocated cur = some (p, alloc', cur')) :
    p ∉ allocated ∧ alloc' = insert p allocated ∧ cur' = p + 1 ∧ cur ≤ p ∧ p ≤ rangeEnd := by
  have H : ∀ (n cur : Nat), rangeEnd + 1 - cur ≤ n →
      ∀ {p : Nat} {alloc' : Finset Nat} {cur' : Nat},
        allocateScan rangeEnd allocated cur = some (p, alloc', cur') →
        p ∉ allocated ∧ alloc' = insert p allocated ∧ cur' = p + 1 ∧ cur ≤ p ∧ p ≤ rangeEnd := by
    intro n
    induction n with
    | zero =>
      intro cur hn p alloc' cur' h
      rw [allocateScan, if_neg (by omega)] at h
      exact absurd h (by simp)
    | succ m ih =>
      intro cur hn p alloc' cur' h
      rw [allocateScan] at h
      by_cases hle : cur ≤ rangeEnd
      · rw [if_pos hle] at h
        by_cases hmem : cur ∈ allocated
        · rw [if_pos hmem] at h
          have := ih (cur + 1) (by omega) h
          exact ⟨this.1, this.2.1, this.2.2.1, by omega, this.2.2.2.2⟩
        · rw [if_neg hmem] at h
          simp only [Option.some.injEq, Prod.mk.injEq] at h
          obtain ⟨h1, h2, h3⟩ := h
          subst h1
          exact ⟨hmem, h2.symm, h3.symm, le_refl _, hle⟩
      · rw [if_neg hle] at h
        exact absurd h (by simp)
  exact H (rangeEnd + 1 - cur) cur (le_refl _) h

theorem allocateScan_none_of_gt {rangeEnd cur : Nat} (h : rangeEnd < cur)
    (allocated : Finset Nat) : allocateScan rangeEnd allocated cur = none := by
  rw [allocateScan]
  simp [Nat.not_le.mpr h]

theorem allocate_port_some {s : PortAllocator} {rangeEnd p : Nat} {s' : PortAllocator}
    (h : s.allocate_port rangeEnd = some (p, s')) :
    p ∉ s.allocated_ports ∧ s'.allocated_ports = insert p s.allocated_ports ∧
      s'.current_port = p + 1 ∧ s.current_port ≤ p ∧ p ≤ rangeEnd := by
  unfold PortAllocator.allocate_port at h
  rcases hscan : allocateScan rangeEnd s.allocated_ports s.current_port with _ | ⟨p', a', c'⟩
  · rw [hscan] at h; exact absurd h (by simp)
  · rw [hscan] at h
    simp only [Option.some.injEq, Prod.mk.injEq] at h
    obtain ⟨rfl, rfl⟩ := h
    exact allocateScan_some hscan

theorem allocate_port_none_of_gt {s : PortAllocator} {rangeEnd : Nat}
    (h : rangeEnd < s.current_port) : s.allocate_port rangeEnd = none := by
  unfold PortAllocator.allocate_port
  rw [allocateScan_none_of_gt h]

/-- The ghost outstanding list stays duplicate-free and inside the
allocated set, across any single call. -/
theorem traceStep_inv (rangeEnd : Nat) (st : PortAllocator × List Nat) (op : AllocOp)
    (h1 : st.2.Nodup) (h2 : ∀ p ∈ st.2, p ∈ st.1.allocated_ports) :
    (traceStep rangeEnd st op).2.Nodup ∧
      ∀ p ∈ (traceStep rangeEnd st op).2, p ∈ (traceStep rangeEnd st op).1.allocated_ports := by
  cases op with
  | alloc =>
    unfold traceStep
    rcases halloc : st.1.allocate_port rangeEnd with _ | ⟨p, s'⟩
    · exact ⟨h1, h2⟩
    · obtain ⟨hnot, hins, -, -, -⟩ := allocate_port_some halloc
      constructor
      · rw [List.nodup_append]
        refine ⟨h1, List.nodup_singleton p, ?_⟩
        intro a ha hap
        simp only [List.mem_singleton] at hap
        subst hap
        exact hnot (h2 a ha)
      · intro q hq
        simp only [List.mem_append, List.mem_singleton] at hq
        rw [hins]
        rcases hq with hq | rfl
        · exact Finset.mem_insert_of_mem (h2 q hq)
        · exact Finset.mem_insert_self q _
  | free p =>
    unfold traceStep
    refine ⟨h1.erase p, ?_⟩
    intro q hq
    have hqmem : q ∈ st.2 := List.mem_of_mem_erase hq
    have hqne : q ≠ p := by
      intro rfl_eq
      exact (h1.mem_erase_iff.mp hq).1 rfl_eq
    unfold PortAllocator.free_port
    by_cases hp : p ∈ st.1.allocated_ports
    · simp only [hp, if_true]
      exact Finset.mem_erase.mpr ⟨hqne, h2 q hqmem⟩
    · simp only [hp, if_false]
      exact h2 q hqmem

theorem traceRun_inv (rangeStart rangeEnd : Nat) (ops : List AllocOp) :
    (traceRun rangeStart rangeEnd ops).2.Nodup ∧
      ∀ p ∈ (traceRun rangeStart rangeEnd ops).2,
        p ∈ (traceRun rangeStart rangeEnd ops).1.allocated_ports := by
  unfold traceRun
  have H : ∀ (l : List AllocOp) (st : PortAllocator × List Nat),
      st.2.Nodup → (∀ p ∈ st.2, p ∈ st.1.allocated_ports) →
      (l.foldl (traceStep rangeEnd) st).2.Nodup ∧
        ∀ p ∈ (l.foldl (traceStep rangeEnd) st).2,
          p ∈ (l.foldl (traceStep rangeEnd) st).1.allocated_ports := by
    intro l
    induction l with
    | nil => intro st h1 h2; exact ⟨h1, h2⟩
    | cons op rest ih =>
      intro st h1 h2
      have step := traceStep_inv rangeEnd st op h1 h2
      exact ih _ step.1 step.2
  exact H ops (PortAllocator.init rangeStart, []) List.nodup_nil (by simp [PortAllocator.init])

/-- After `k` successful allocations the cursor has advanced at least `k`. -/
theorem allocateN_cursor {rangeEnd : Nat} :
    ∀ (k : Nat) (s s' : PortAllocator), allocateN rangeEnd k s = some s' →
      s.current_port + k ≤ s'.current_port := by
  intro k
  induction k with
  | zero =>
    intro s s' h
    simp only [allocateN, Option.some.injEq] at h
    subst h
    omega
  | succ n ih =>
    intro s s' h
    unfold allocateN at h
    rcases halloc : s.allocate_port rangeEnd with _ | ⟨p, s₁⟩
    · rw [halloc] at h; exact absurd h (by simp)
    · rw [halloc] at h
      obtain ⟨-, -, hcur, hle, -⟩ := allocate_port_some halloc
      have := ih s₁ s' h
      omega

/-! ### Claim theorems for the port allocator -/

/-- C2: over the inclusive range `[rangeStart, rangeEnd]` of size
`N = rangeEnd + 1 - rangeStart`, (i) for every sequence of
`allocate_port`/`free_port` calls on a fresh allocator, no two outstanding
(allocated and not yet freed) allocations carry the same port number, and
(ii) after `N` consecutive successful allocations with no intervening free,
the next `allocate_port` call raises the exhaustion error (returns `none`). -/
theorem C2_allocator_unique_and_exhausts
    (rangeStart rangeEnd : Nat) (ops : List AllocOp) (s s' : PortAllocator)
    (hcur : rangeStart ≤ s.current_port)
    (hN : allocateN rangeEnd (rangeEnd + 1 - rangeStart) s = some s') :
    (traceRun rangeStart rangeEnd ops).2.Nodup ∧
      s'.allocate_port rangeEnd = none := by
  refine ⟨(traceRun_inv rangeStart rangeEnd ops).1, ?_⟩
  have h := allocateN_cursor (rangeEnd + 1 - rangeStart) s s' hN
  exact allocate_port_none_of_gt (by omega)

/-- Witness for C2 at `rangeStart = 0`, `rangeEnd = 0` (pool of size 1). -/
theorem C2_allocator_unique_and_exhausts_witness :
    (traceRun 0 0 [AllocOp.alloc, AllocOp.free 0, AllocOp.alloc]).2.Nodup ∧
      PortAllocator.allocate_port ⟨insert 0 ∅, 1⟩ 0 = none :=
  C2_allocator_unique_and_exhausts 0 0 [AllocOp.alloc, AllocOp.free 0, AllocOp.alloc]
    (PortAllocator.init 0) ⟨insert 0 ∅, 1⟩ (Nat.le_refl 0)
    (by simp [allocateN, PortAllocator.allocate_port, PortAllocator.init, allocateScan])

/-- C10: `free_port` is total and idempotent: freeing a port that is not
allocated leaves the allocator unchanged (and raises no error), and
freeing twice equals freeing once. -/
theorem C10_free_port_total_idempotent (s : PortAllocator) (p : Nat) :
    (p ∉ s.allocated_ports → s.free_port p = s) ∧
      (s.free_port p).free_port p = s.free_port p := by
  constructor
  · intro hp
    unfold PortAllocator.free_port
    rw [if_neg hp]
  · by_cases hp : p ∈ s.allocated_ports
    · have h1 : s.free_port p = { s with allocated_ports := s.allocated_ports.erase p } := by
        unfold PortAllocator.free_port
        rw [if_pos hp]
      rw [h1]
      unfold PortAllocator.free_port
      rw [if_neg (by simp)]
    · have h1 : s.free_port p = s := by
        unfold PortAllocator.free_port
        rw [if_neg hp]
      rw [h1, h1]

/-- Witness for C10 at a fresh allocator and port 7. -/
theorem C10_free_port_total_idempotent_witness :
    (PortAllocator.init 3).free_port 7 = PortAllocator.init 3 ∧
      ((PortAllocator.init 3).free_port 7).free_port 7 = (PortAllocator.init 3).free_port 7 :=
  ⟨(C10_free_port_total_idempotent (PortAllocator.init 3) 7).1 (by decide),
    (C10_free_port_total_idempotent (PortAllocator.init 3) 7).2⟩

/-! ## Device records (`services/database.py`, class `Device`) and the
boot readiness gate (`services/adb_utils.py`, `adb_wait_for_boot`). -/

structure Device where
  id : Nat
  user_id : Nat
  container_id : Option String
  status : String
  ip_address : Option String
  webrtc_port : Option Nat
  adb_port : Option Nat
  last_used : Nat
deriving DecidableEq

inductive BootResult where
  | ready : BootResult
  | timedOut : BootResult
  | bootError : BootResult
deriving DecidableEq

/-- The polling loop of `adb_wait_for_boot`: once per second (iteration `i`
of `range(timeout)`) read the two boot signals (`sys.boot_completed`,
`dev.bootcomplete`); declare readiness only when both are observed, and
raise `TimeoutError` when the loop ends. -/
def bootPoll (signals : Nat → Bool × Bool) : Nat → Nat → BootResult
  | _, 0 => .timedOut
  | i, fuel + 1 =>
    if (signals i).1 ∧ (signals i).2 then .ready
    else bootPoll signals (i + 1) fuel

/-- Function `adb_wait_for_boot`: `adb wait-for-device` first (its failure raises
`RuntimeError`, modelled as `bootError`), then the polling loop. -/
def adb_wait_for_boot (deviceAppears : Bool) (signals : Nat → Bool × Bool)
    (timeout : Nat) : BootResult :=
  if deviceAppears then bootPoll signals 0 timeout else .bootError

/-! ## Device lifecycle controller (`services/vm_manager.py`, `VMManager`)

`start_device`/`stop_device` interact with the Docker runtime; the
runtime's behaviour at each external call is an oracle parameter. -/

/-- Outcome of `DockerRuntime.start_android_vm`: `some (container_id, ip)`
on success, `none` when the runtime call raises. -/
structure StartEnv where
  runtime : Option (String × String)
  deviceAppears : Bool
  signals : Nat → Bool × Bool

/-- The dict returned by `VMManager.start_device`. -/
structure StartInfo where
  container_id : String
  ip_address : String
  webrtc_port : Nat
  adb_port : Nat
  status : String
deriving DecidableEq

/-- Method `VMManager.start_device`. Allocates the webrtc port then the adb port,
sets them on the device object, starts the container, then waits for boot
with `timeout=120`; both `TimeoutError` and any other boot-wait exception
are caught and the start continues. A raised exception anywhere else
propagates (`none` result); the ports allocated so far stay allocated
(the code has no cleanup handler). -/
def start_device (rangeEnd : Nat) (env : StartEnv) (alloc : PortAllocator)
    (d : Device) : Option StartInfo × PortAllocator × Device :=
  match alloc.allocate_port rangeEnd with
  | none => (none, alloc, d)
  | some (webrtc_port, a1) =>
    match a1.allocate_port rangeEnd with
    | none => (none, a1, d)
    | some (adb_port, a2) =>
      let d' := { d with webrtc_port := some webrtc_port, adb_port := some adb_port }
      match env.runtime with
      | none => (none, a2, d')
      | some (cid, ip) =>
        match adb_wait_for_boot env.deviceAppears env.signals 120 with
        | .ready =>
          (some ⟨cid, ip, webrtc_port, adb_port, "running"⟩, a2, d')
        | .timedOut =>
          (some ⟨cid, ip, webrtc_port, adb_port, "running"⟩, a2, d')
        | .bootError =>
          (some ⟨cid, ip, webrtc_port, adb_port, "running"⟩, a2, d')

/-- Python truthiness of an optional port (`if device.webrtc_port:`):
false for `None` and for `0`. -/
def truthyPort : Option Nat → Bool
  | none => false
  | some p => p ≠ 0

/-- Outcome of `container.stop(timeout=10)` inside `_stop_container`:
`NotFound` is caught and only logged, any other exception re-raises. -/
inductive StopRuntime where
  | ok : StopRuntime
  | notFound : StopRuntime
  | failure : StopRuntime
deriving DecidableEq

/-- Method `VMManager.stop_device`: if the device has no container id, warn and
return without touching the allocator; otherwise stop the container
(re-raising its failures, modelled as `none`) and then free the webrtc and
adb ports when their fields are truthy. -/
def stop_device (env : StopRuntime) (alloc : PortAllocator) (d : Device) :
    Option PortAllocator :=
  match d.container_id with
  | none => some alloc
  | some _ =>
    match env with
    | .failure => none
    | _ =>
      let a1 := if truthyPort d.webrtc_port then alloc.free_port (d.webrtc_port.getD 0) else alloc
      let a2 := if truthyPort d.adb_port then a1.free_port (d.adb_port.getD 0) else a1
      some a2

/-! ## API layer (`api/devices.py`, `control_device`). -/

/-- The `action == "start"` branch of `control_device`: on success copy the
returned dict into the device record and set status `"running"`; when
`start_device` raises, the exception propagates as an HTTP 500 and the
device record is left untouched. -/
def control_start (rangeEnd : Nat) (env : StartEnv) (alloc : PortAllocator)
    (d : Device) : PortAllocator × Device :=
  match start_device rangeEnd env alloc d with
  | (some info, a, _) =>
    (a, { d with
            status := "running"
            container_id := some info.container_id
            ip_address := some info.ip_address
            webrtc_port := some info.webrtc_port
            adb_port := some info.adb_port })
  | (none, a, d') => (a, d')

/-- The `action == "stop"` branch of `control_device`: call `stop_device`
then set status `"stopped"`; no other device field is written. When
`stop_device` raises, the exception propagates and the record is left
untouched. -/
def control_stop (env : StopRuntime) (alloc : PortAllocator) (d : Device) :
    Option (PortAllocator × Device) :=
  match stop_device env alloc d with
  | some a => some (a, { d with status := "stopped" })
  | none => none

/-! ### Lifecycle lemmas -/

theorem free_port_not_mem (s : PortAllocator) (p : Nat) :
    p ∉ (s.free_port p).allocated_ports := by
  unfold PortAllocator.free_port
  by_cases hp : p ∈ s.allocated_ports
  · rw [if_pos hp]
    exact Finset.not_mem_erase p _
  · rw [if_neg hp]
    exact hp

theorem free_port_not_mem_of_not_mem (s : PortAllocator) (p q : Nat)
    (h : q ∉ s.allocated_ports) : q ∉ (s.free_port p).allocated_ports := by
  unfold PortAllocator.free_port
  by_cases hp : p ∈ s.allocated_ports
  · rw [if_pos hp]
    intro hq
    exact h (Finset.mem_of_mem_erase hq)
  · rw [if_neg hp]
    exact h

theorem bootPoll_timedOut (signals : Nat → Bool × Bool) :
    ∀ (fuel i : Nat),
      (∀ j, i ≤ j → j < i + fuel → ¬((signals j).1 ∧ (signals j).2)) →
      bootPoll signals i fuel = .timedOut := by
  intro fuel
  induction fuel with
  | zero => intro i _; rfl
  | succ m ih =>
    intro i h
    unfold bootPoll
    rw [if_neg (h i (le_refl i) (by omega))]
    exact ih (i + 1) (fun j hj hj' => h j (by omega) (by omega))

/-! ### Claim theorems for start/stop -/

/-- The concrete stopped device used at the C1 failing input. -/
def devStopped : Device :=
  { id := 1, user_id := 7, container_id := none, status := "stopped",
    ip_address := none, webrtc_port := none, adb_port := none, last_used := 0 }

/-- C1 (code bug evidence): a `start` on a stopped device in which the
Container Runtime call raises leaves both ports allocated for the attempt
in the allocator's allocated set and leaves the device status `"stopped"`
— the code frees nothing and never sets status `"error"`, contradicting
the spec's no-leak property. -/
theorem C1_runtime_failure_leaks_ports_and_skips_error_status :
    (control_start 49252 ⟨none, true, fun _ => (true, true)⟩
        (PortAllocator.init 49152) devStopped).1.allocated_ports =
      {49153, 49152} ∧
    (control_start 49252 ⟨none, true, fun _ => (true, true)⟩
        (PortAllocator.init 49152) devStopped).2.status = "stopped" := by
  have h1 : (PortAllocator.init 49152).allocate_port 49252 =
      some (49152, ⟨{49152}, 49153⟩) := by
    rw [PortAllocator.allocate_port, PortAllocator.init]
    rw [allocateScan, if_pos (by norm_num), if_neg (Finset.not_mem_empty _)]
    simp
  have h2 : (PortAllocator.allocate_port ⟨{49152}, 49153⟩ 49252) =
      some (49153, ⟨{49153, 49152}, 49154⟩) := by
    rw [PortAllocator.allocate_port]
    rw [allocateScan, if_pos (by norm_num), if_neg (by decide)]
  simp [control_start, start_device, h1, h2, devStopped]

/-- The concrete running device used in the C3 counterexample. -/
def devRunning : Device :=
  { id := 1, user_id := 7, container_id := some "c", status := "running",
    ip_address := some "172.17.0.2", webrtc_port := some 49152,
    adb_port := some 49153, last_used := 0 }

/-- C3 counterexample: stopping a running device with a present
runtime-handle frees both ports and sets status `"stopped"`, but leaves
the runtime-handle, address and port fields on the record — they are not
cleared as the claim states. -/
theorem C3_stop_does_not_clear_fields_counterexample :
    control_stop StopRuntime.ok ⟨insert 49152 (insert 49153 ∅), 49154⟩ devRunning =
      some (⟨∅, 49154⟩, { devRunning with status := "stopped" }) ∧
    ¬(({ devRunning with status := "stopped" } : Device).container_id = none ∧
      ({ devRunning with status := "stopped" } : Device).ip_address = none ∧
      ({ devRunning with status := "stopped" } : Device).webrtc_port = none ∧
      ({ devRunning with status := "stopped" } : Device).adb_port = none) := by
  constructor
  · decide
  · decide

/-- C3 (amended): for every device whose runtime-handle is present and
whose two port fields hold nonzero ports, a `stop` in which the runtime
call does not raise returns both leased ports to the allocator's available
set and sets the status to `"stopped"`; the runtime-handle, address and
port fields are left in place, not cleared. -/
theorem C3_stop_frees_ports_and_sets_stopped
    (env : StopRuntime) (alloc : PortAllocator) (d : Device) (w a : Nat)
    (hc : d.container_id ≠ none) (henv : env ≠ StopRuntime.failure)
    (hw : d.webrtc_port = some w) (hw0 : w ≠ 0)
    (ha : d.adb_port = some a) (ha0 : a ≠ 0) :
    ∃ alloc', control_stop env alloc d = some (alloc', { d with status := "stopped" }) ∧
      w ∉ alloc'.allocated_ports ∧ a ∉ alloc'.allocated_ports := by
  rcases hcid : d.container_id with _ | c
  · exact absurd hcid hc
  · refine ⟨((alloc.free_port w).free_port a), ?_, ?_, ?_⟩
    · unfold control_stop stop_device
      rw [hcid]
      cases env with
      | failure => exact absurd rfl henv
      | ok =>
        simp [truthyPort, hw, ha, hw0, ha0]
      | notFound =>
        simp [truthyPort, hw, ha, hw0, ha0]
    · exact free_port_not_mem_of_not_mem _ a w (free_port_not_mem alloc w)
    · exact free_port_not_mem _ a

/-- Witness for the amended C3 at the concrete running device. -/
theorem C3_stop_frees_ports_and_sets_stopped_witness :
    ∃ alloc', control_stop StopRuntime.ok ⟨insert 49152 (insert 49153 ∅), 49154⟩
        devRunning = some (alloc', { devRunning with status := "stopped" }) ∧
      49152 ∉ alloc'.allocated_ports ∧ 49153 ∉ alloc'.allocated_ports :=
  C3_stop_frees_ports_and_sets_stopped StopRuntime.ok
    ⟨insert 49152 (insert 49153 ∅), 49154⟩ devRunning 49152 49153
    (by decide) (by decide) (by decide) (by decide) (by decide) (by decide)

/-- C5: when the boot readiness gate reaches its timeout — the device never
reports both readiness signals within the 120-second window — the outcome
is non-fatal: `adb_wait_for_boot` reports the timeout, yet `start` still
completes and the device is marked `"running"`, not `"error"`. -/
theorem C5_boot_timeout_is_nonfatal
    (rangeEnd : Nat) (alloc a1 a2 : PortAllocator) (w ad : Nat) (d : Device)
    (cid ip : String) (signals : Nat → Bool × Bool)
    (hsig : ∀ i, i < 120 → ¬((signals i).1 ∧ (signals i).2))
    (h1 : alloc.allocate_port rangeEnd = some (w, a1))
    (h2 : a1.allocate_port rangeEnd = some (ad, a2)) :
    adb_wait_for_boot true signals 120 = BootResult.timedOut ∧
      (control_start rangeEnd ⟨some (cid, ip), true, signals⟩ alloc d).2.status =
        "running" := by
  have hb : adb_wait_for_boot true signals 120 = BootResult.timedOut := by
    unfold adb_wait_for_boot
    rw [if_pos rfl]
    exact bootPoll_timedOut signals 120 0 (fun j _ hj => hsig j (by omega))
  refine ⟨hb, ?_⟩
  simp [control_start, start_device, h1, h2, hb]

/-- Witness for C5: a device that never signals boot readiness. -/
theorem C5_boot_timeout_is_nonfatal_witness :
    adb_wait_for_boot true (fun _ => (false, false)) 120 = BootResult.timedOut ∧
      (control_start 49252 ⟨some ("c", "172.17.0.2"), true, fun _ => (false, false)⟩
          (PortAllocator.init 49152) devStopped).2.status = "running" :=
  C5_boot_timeout_is_nonfatal 49252 (PortAllocator.init 49152)
    ⟨{49152}, 49153⟩ ⟨{49153, 49152}, 49154⟩ 49152 49153 devStopped
    "c" "172.17.0.2" (fun _ => (false, false))
    (fun _ _ => by simp)
    (by rw [PortAllocator.allocate_port, PortAllocator.init,
          allocateScan, if_pos (by norm_num), if_neg (Finset.not_mem_empty _)]
        simp)
    (by rw [PortAllocator.allocate_port,
          allocateScan, if_pos (by norm_num), if_neg (by decide)])

/-! ## Reaper loops (`services/orchestrator.py`)

`_monitor_resources` samples host CPU and memory utilization once per
60-second tick and, when either exceeds 90, runs
`_emergency_resource_cleanup`, which selects the `running` devices ordered
by ascending `last_used` with SQL `LIMIT 5` and stops each. Utilizations
are percentages, modelled as rationals. -/

/-- The device selection of `_emergency_resource_cleanup`:
`WHERE status = 'running' ORDER BY last_used ASC LIMIT 5`. -/
def emergency_cleanup_selection (devices : List Device) : List Device :=
  ((devices.filter (fun d => d.status == "running")).mergeSort
    (fun a b => decide (a.last_used ≤ b.last_used))).take 5

/-- One `_monitor_resources` tick: the devices it stops. -/
def monitor_resources_stops (cpu mem : ℚ) (devices : List Device) : List Device :=
  if cpu > 90 ∨ mem > 90 then emergency_cleanup_selection devices else []

/-- C7: a resource-pressure tick stops no device when neither utilization
exceeds 90%; when one does, it stops exactly `min 5 (number of running
devices)` devices, all of them running, and every stopped device's
`last_used` is no newer than that of any running device left unstopped
(least recently used first). -/
theorem C7_pressure_reaper_stops_lru_running
    (cpu mem : ℚ) (devices : List Device) :
    (cpu ≤ 90 ∧ mem ≤ 90 → monitor_resources_stops cpu mem devices = []) ∧
    (90 < cpu ∨ 90 < mem →
      (monitor_resources_stops cpu mem devices).length =
        min 5 (devices.filter (fun d => d.status == "running")).length ∧
      (∀ d ∈ monitor_resources_stops cpu mem devices,
        d ∈ devices.filter (fun d => d.status == "running")) ∧
      ∀ d ∈ monitor_resources_stops cpu mem devices,
        ∀ e ∈ devices.filter (fun d => d.status == "running"),
          e ∉ monitor_resources_stops cpu mem devices →
            d.last_used ≤ e.last_used) := by
  constructor
  · rintro ⟨hc, hm⟩
    unfold monitor_resources_stops
    rw [if_neg]
    push_neg
    exact ⟨hc, hm⟩
  · intro hpress
    have heq : monitor_resources_stops cpu mem devices =
        emergency_cleanup_selection devices := by
      unfold monitor_resources_stops
      rw [if_pos hpress]
    set R := devices.filter (fun d => d.status == "running") with hR
    set L := R.mergeSort (fun a b => decide (a.last_used ≤ b.last_used)) with hL
    have hLlen : L.length = R.length := List.length_mergeSort R
    have hsel : emergency_cleanup_selection devices = L.take 5 := rfl
    have hsorted : L.Pairwise (fun a b => decide (a.last_used ≤ b.last_used) = true) := by
      rw [hL]
      exact List.sorted_mergeSort
        (fun a b c hab hbc => by
          simp only [decide_eq_true_eq] at *
          omega)
        (fun a b => by
          simp only [Bool.or_eq_true, decide_eq_true_eq]
          exact Nat.le_total _ _)
        R
    refine ⟨?_, ?_, ?_⟩
    · rw [heq, hsel, List.length_take, hLlen]
    · intro d hd
      rw [heq, hsel] at hd
      have : d ∈ L := List.mem_of_mem_take hd
      rw [hL] at this
      exact (List.mem_mergeSort).mp this
    · intro d hd e he hne
      rw [heq, hsel] at hd hne
      have heL : e ∈ L := by
        rw [hL]
        exact (List.mem_mergeSort).mpr he
      have hsplit : L = L.take 5 ++ L.drop 5 := (List.take_append_drop 5 L).symm
      have hpair : (L.take 5 ++ L.drop 5).Pairwise
          (fun a b => decide (a.last_used ≤ b.last_used) = true) := by
        rw [← hsplit]
        exact hsorted
      have hcross := (List.pairwise_append.mp hpair).2.2
      have hedrop : e ∈ L.drop 5 := by
        rcases (List.mem_append.mp (hsplit ▸ heL)) with h | h
        · exact absurd h hne
        · exact h
      have := hcross d hd e hedrop
      simpa using this

/-- Seven running devices with pairwise distinct `last_used`, the spec's
resource-pressure example. -/
def devsC7 : List Device :=
  [⟨1, 7, some "c1", "running", some "ip", some 1, some 2, 70⟩,
   ⟨2, 7, some "c2", "running", some "ip", some 3, some 4, 10⟩,
   ⟨3, 7, some "c3", "running", some "ip", some 5, some 6, 50⟩,
   ⟨4, 7, some "c4", "running", some "ip", some 7, some 8, 30⟩,
   ⟨5, 7, some "c5", "running", some "ip", some 9, some 10, 60⟩,
   ⟨6, 7, some "c6", "running", some "ip", some 11, some 12, 20⟩,
   ⟨7, 7, some "c7", "running", some "ip", some 13, some 14, 40⟩]

/-- Witness for C7: at 95% CPU with 7 running devices exactly 5 are
stopped; at 50%/50% nothing is stopped. -/
theorem C7_pressure_reaper_stops_lru_running_witness :
    monitor_resources_stops 50 50 devsC7 = [] ∧
      ((monitor_resources_stops 95 50 devsC7).length =
        min 5 (devsC7.filter (fun d => d.status == "running")).length ∧
      (∀ d ∈ monitor_resources_stops 95 50 devsC7,
        d ∈ devsC7.filter (fun d => d.status == "running")) ∧
      ∀ d ∈ monitor_resources_stops 95 50 devsC7,
        ∀ e ∈ devsC7.filter (fun d => d.status == "running"),
          e ∉ monitor_resources_stops 95 50 devsC7 →
            d.last_used ≤ e.last_used) :=
  ⟨(C7_pressure_reaper_stops_lru_running 50 50 devsC7).1 (by norm_num),
   (C7_pressure_reaper_stops_lru_running 95 50 devsC7).2 (Or.inl (by norm_num))⟩

/-! ## Sessions (`services/database.py` `Session`/`User`, `api/sessions.py`)

`create_session` verifies the user exists and is active, the device
exists, belongs to the user and is `running`, then stores a new session
with `session_token = secrets.token_urlsafe(32)` and status `"active"`.
`token_urlsafe(32)` draws 32 random bytes and encodes them with the
URL-safe base64 alphabet without padding; the 32 random bytes are the
entropy input of the embedding. -/

structure UserRec where
  id : Nat
  is_active : Bool
deriving DecidableEq

structure SessionRec where
  user_id : Nat
  device_id : Nat
  session_token : List Char
  status : String
deriving DecidableEq

structure Db where
  users : List UserRec
  devices : List Device
  sessions : List SessionRec
deriving DecidableEq

inductive ApiError where
  | notFound : String → ApiError
  | forbidden : String → ApiError
  | badRequest : String → ApiError
deriving DecidableEq

/-- Base64 encoding at the numeric level: bytes to 6-bit groups, no
padding (as `token_urlsafe` strips it). -/
def encodeSextets : List Nat → List Nat
  | [] => []
  | [a] => [a / 4, (a % 4) * 16]
  | [a, b] => [a / 4, (a % 4) * 16 + b / 16, (b % 16) * 4]
  | a :: b :: c :: rest =>
    (a / 4) :: ((a % 4) * 16 + b / 16) :: ((b % 16) * 4 + c / 64) :: (c % 64) ::
      encodeSextets rest

/-- Inverse of `encodeSextets`, used to prove tokens are injective in the
entropy bytes. -/
def decodeSextets : List Nat → List Nat
  | w :: x :: y :: z :: rest =>
    (w * 4 + x / 16) :: ((x % 16) * 16 + y / 4) :: ((y % 4) * 64 + z) ::
      decodeSextets rest
  | [w, x] => [w * 4 + x / 16]
  | [w, x, y] => [w * 4 + x / 16, (x % 16) * 16 + y / 4]
  | _ => []

/-- The URL-safe base64 alphabet of `secrets.token_urlsafe`. -/
def b64urlAlphabet : List Char :=
  "ABCDEFGHIJKLMNOPQRSTUVWXYZabcdefghijklmnopqrstuvwxyz0123456789-_".toList

def b64urlChar (n : Nat) : Char := b64urlAlphabet.getD n 'A'

def b64urlVal (c : Char) : Nat := b64urlAlphabet.indexOf c

/-- Encoding of `secrets.token_urlsafe` on the given entropy bytes. -/
def token_urlsafe (entropy : List Nat) : List Char :=
  (encodeSextets entropy).map b64urlChar

/-- The session record built by `create_session`. -/
def newSession (uid did : Nat) (entropy : List Nat) : SessionRec :=
  { user_id := uid, device_id := did, session_token := token_urlsafe entropy,
    status := "active" }

/-- Endpoint `create_session` (`api/sessions.py`): the guard chain and the insert.
The returned pair is the (possibly updated) session table together with
the HTTP outcome; every error branch leaves the table untouched. -/
def create_session (db : Db) (uid did : Nat) (entropy : List Nat) :
    Db × Except ApiError SessionRec :=
  match db.users.find? (fun x => x.id == uid) with
  | none => (db, Except.error (ApiError.notFound "User not found or inactive"))
  | some u =>
    if u.is_active then
      match db.devices.find? (fun x => x.id == did) with
      | none => (db, Except.error (ApiError.notFound "Device not found"))
      | some dev =>
        if dev.user_id != uid then
          (db, Except.error (ApiError.forbidden "Device does not belong to user"))
        else if dev.status != "running" then
          (db, Except.error (ApiError.badRequest
            "Device is not running. Please start the device first."))
        else
          ({ db with sessions := db.sessions ++ [newSession uid did entropy] },
            Except.ok (newSession uid did entropy))
    else
      (db, Except.error (ApiError.notFound "User not found or inactive"))

/-! ### Token lemmas -/

theorem decodeSextets_encodeSextets :
    ∀ (l : List Nat), (∀ b ∈ l, b < 256) → decodeSextets (encodeSextets l) = l
  | [], _ => rfl
  | [a], h => by
    have ha : a < 256 := h a (by simp)
    simp only [encodeSextets, decodeSextets, List.cons.injEq, and_true]
    omega
  | [a, b], h => by
    have ha : a < 256 := h a (by simp)
    have hb : b < 256 := h b (by simp)
    simp only [encodeSextets, decodeSextets, List.cons.injEq, and_true]
    omega
  | a :: b :: c :: rest, h => by
    have ha : a < 256 := h a (by simp)
    have hb : b < 256 := h b (by simp)
    have hc : c < 256 := h c (by simp)
    have ih := decodeSextets_encodeSextets rest (fun x hx => h x (by simp [hx]))
    simp only [encodeSextets, decodeSextets, List.cons.injEq]
    refine ⟨by omega, by omega, by omega, ih⟩

theorem encodeSextets_lt_64 :
    ∀ (l : List Nat), (∀ b ∈ l, b < 256) → ∀ s ∈ encodeSextets l, s < 64
  | [], _ => by simp [encodeSextets]
  | [a], h => by
    have ha : a < 256 := h a (by simp)
    simp only [encodeSextets, List.mem_cons, List.not_mem_nil, or_false]
    rintro s (rfl | rfl) <;> omega
  | [a, b], h => by
    have ha : a < 256 := h a (by simp)
    have hb : b < 256 := h b (by simp)
    simp only [encodeSextets, List.mem_cons, List.not_mem_nil, or_false]
    rintro s (rfl | rfl | rfl) <;> omega
  | a :: b :: c :: rest, h => by
    have ha : a < 256 := h a (by simp)
    have hb : b < 256 := h b (by simp)
    have hc : c < 256 := h c (by simp)
    have ih := encodeSextets_lt_64 rest (fun x hx => h x (by simp [hx]))
    simp only [encodeSextets, List.mem_cons]
    rintro s (rfl | rfl | rfl | rfl | hs)
    · omega
    · omega
    · omega
    · omega
    · exact ih s hs

theorem b64urlVal_b64urlChar : ∀ n < 64, b64urlVal (b64urlChar n) = n := by decide

theorem map_val_map_char (es : List Nat) (h : ∀ s ∈ es, s < 64) :
    (es.map b64urlChar).map b64urlVal = es := by
  induction es with
  | nil => rfl
  | cons s rest ih =>
    simp only [List.map_cons, List.cons.injEq]
    exact ⟨b64urlVal_b64urlChar s (h s (by simp)),
      ih (fun x hx => h x (by simp [hx]))⟩

/-- Tokens are injective in the entropy bytes: two calls of
`token_urlsafe` on distinct 32-byte draws yield distinct tokens. -/
theorem token_urlsafe_injective (e1 e2 : List Nat)
    (h1 : ∀ b ∈ e1, b < 256) (h2 : ∀ b ∈ e2, b < 256)
    (heq : token_urlsafe e1 = token_urlsafe e2) : e1 = e2 := by
  have hs : encodeSextets e1 = encodeSextets e2 := by
    have := congrArg (List.map b64urlVal) heq
    rwa [token_urlsafe, token_urlsafe, map_val_map_char _ (encodeSextets_lt_64 e1 h1),
      map_val_map_char _ (encodeSextets_lt_64 e2 h2)] at this
  have := congrArg decodeSextets hs
  rwa [decodeSextets_encodeSextets e1 h1, decodeSextets_encodeSextets e2 h2] at this

/-- The successful path of `create_session`. -/
theorem create_session_ok (db : Db) (uid did : Nat) (entropy : List Nat)
    (u : UserRec) (dev : Device)
    (hu : db.users.find? (fun x => x.id == uid) = some u)
    (hact : u.is_active = true)
    (hd : db.devices.find? (fun x => x.id == did) = some dev)
    (hown : dev.user_id = uid) (hrun : dev.status = "running") :
    create_session db uid did entropy =
      ({ db with sessions := db.sessions ++ [newSession uid did entropy] },
        Except.ok (newSession uid did entropy)) := by
  unfold create_session
  rw [hu]
  simp only [hact, if_true, hd]
  rw [if_neg (by simp [hown]), if_neg (by simp [hrun])]

/-! ### Claim theorems for sessions -/

/-- Thirty-two zero bytes, a concrete entropy draw. -/
def entropy0 : List Nat := List.replicate 32 0

/-- A session table that already holds an active session for device 1. -/
def dbC4 : Db :=
  { users := [⟨7, true⟩], devices := [devRunning],
    sessions := [⟨7, 1, ['x'], "active"⟩] }

/-- C4 counterexample: `create_session` against a running device that
already has an active session succeeds (it neither fails nor force-expires
the prior session), leaving two active sessions for the device. -/
theorem C4_second_active_session_counterexample :
    (create_session dbC4 7 1 entropy0).2.isOk = true ∧
    ((create_session dbC4 7 1 entropy0).1.sessions.filter
        (fun s => s.device_id == 1 &&
          (s.status == "active" || s.status == "disconnected"))).length = 2 := by
  constructor
  · rfl
  · rfl

/-- C4 (amended): `create_session` performs no single-session check: for
every session table, creating a session against a running device owned by
an active user succeeds unconditionally and appends a new active session,
leaving every existing session of the device untouched — so more than one
active/disconnected session per device is reachable. -/
theorem C4_create_session_ignores_existing_sessions
    (db : Db) (uid did : Nat) (entropy : List Nat) (u : UserRec) (dev : Device)
    (hu : db.users.find? (fun x => x.id == uid) = some u)
    (hact : u.is_active = true)
    (hd : db.devices.find? (fun x => x.id == did) = some dev)
    (hown : dev.user_id = uid) (hrun : dev.status = "running") :
    create_session db uid did entropy =
      ({ db with sessions := db.sessions ++ [newSession uid did entropy] },
        Except.ok (newSession uid did entropy)) ∧
    ∀ s ∈ db.sessions, s ∈ (create_session db uid did entropy).1.sessions := by
  have h := create_session_ok db uid did entropy u dev hu hact hd hown hrun
  refine ⟨h, ?_⟩
  intro s hs
  rw [h]
  simp [hs]

/-- Witness for the amended C4 at the table that already has an active
session for the device. -/
theorem C4_create_session_ignores_existing_sessions_witness :
    create_session dbC4 7 1 entropy0 =
      ({ dbC4 with sessions := dbC4.sessions ++ [newSession 7 1 entropy0] },
        Except.ok (newSession 7 1 entropy0)) ∧
    ∀ s ∈ dbC4.sessions, s ∈ (create_session dbC4 7 1 entropy0).1.sessions :=
  C4_create_session_ignores_existing_sessions dbC4 7 1 entropy0 ⟨7, true⟩ devRunning
    rfl rfl rfl rfl rfl

/-- C6: with a valid active owner, `create_session` against a non-running
device fails with the invalid-transition (HTTP 400) error and stores no
session record; against a running device it succeeds and stores a session
whose token is the URL-safe encoding of the 32 entropy bytes; tokens are
injective in the entropy bytes (distinct draws give distinct tokens), and
the 32-byte entropy space carries at least 128 bits. -/
theorem C6_create_session_gate_and_token
    (db : Db) (uid did : Nat) (entropy : List Nat) (u : UserRec) (dev : Device)
    (hu : db.users.find? (fun x => x.id == uid) = some u)
    (hact : u.is_active = true)
    (hd : db.devices.find? (fun x => x.id == did) = some dev)
    (hown : dev.user_id = uid) :
    (dev.status ≠ "running" →
      create_session db uid did entropy =
        (db, Except.error (ApiError.badRequest
          "Device is not running. Please start the device first."))) ∧
    (dev.status = "running" →
      create_session db uid did entropy =
        ({ db with sessions := db.sessions ++ [newSession uid did entropy] },
          Except.ok (newSession uid did entropy)) ∧
      (newSession uid did entropy).session_token = token_urlsafe entropy) ∧
    (∀ e1 e2 : List Nat, (∀ b ∈ e1, b < 256) → (∀ b ∈ e2, b < 256) →
      token_urlsafe e1 = token_urlsafe e2 → e1 = e2) ∧
    2 ^ 128 ≤ 256 ^ 32 := by
  refine ⟨?_, ?_, token_urlsafe_injective, by norm_num⟩
  · intro hst
    unfold create_session
    rw [hu]
    simp only [hact, if_true, hd]
    rw [if_neg (by simp [hown]), if_pos (by simp [hst])]
  · intro hrun
    exact ⟨create_session_ok db uid did entropy u dev hu hact hd hown hrun, rfl⟩

/-- A table whose only device is stopped, owned by active user 7. -/
def dbC6stop : Db :=
  { users := [⟨7, true⟩], devices := [devStopped], sessions := [] }

/-- Witness for C6: the not-running branch errors without storing, the
running branch stores the token-bearing session. -/
theorem C6_create_session_gate_and_token_witness :
    create_session dbC6stop 7 1 entropy0 =
      (dbC6stop, Except.error (ApiError.badRequest
        "Device is not running. Please start the device first.")) ∧
    create_session dbC4 7 1 entropy0 =
      ({ dbC4 with sessions := dbC4.sessions ++ [newSession 7 1 entropy0] },
        Except.ok (newSession 7 1 entropy0)) :=
  ⟨(C6_create_session_gate_and_token dbC6stop 7 1 entropy0 ⟨7, true⟩ devStopped
      rfl rfl rfl rfl).1 (by decide),
   ((C6_create_session_gate_and_token dbC4 7 1 entropy0 ⟨7, true⟩ devRunning
      rfl rfl rfl rfl).2.1 rfl).1⟩

/-! ## Signaling coordinator (`services/webrtc_server.py`, `api/sessions.py`)

Input coordinates arrive as JSON numbers, modelled as rationals. `int()`
truncates toward zero. -/

/-- Python `int()` on a rational. -/
def pyInt (q : ℚ) : Int := q.num.tdiv q.den

/-- Messages of the WebRTC DataChannel control path
(`_handle_datachannel_message`). -/
inductive DcMsg where
  | tap (x y : ℚ)
  | swipe (x1 y1 x2 y2 : ℚ) (duration : ℚ)
  | keyevent (keycode : Int)
  | other
deriving DecidableEq

/-- Messages of the legacy WebSocket `input` path (`_handle_input`). -/
inductive WsInput where
  | touch (x y : ℚ) (action : String)
  | key (keyCode : Int)
  | text (t : String)
  | other
deriving DecidableEq

/-- The ADB `input` command forwarded to the device control channel.
Coordinates are kept as rationals because the WebSocket path interpolates
the received values verbatim into the command. -/
inductive AdbInput where
  | tap (px py : ℚ)
  | swipe (x1 y1 x2 y2 : ℚ) (duration : ℚ)
  | keyevent (k : Int)
  | text (t : String)
deriving DecidableEq

/-- Handler `_handle_datachannel_message`: converts normalized coordinates to
pixels against the fixed 1280×720 display and clamps with
`max(0, min(int(v * extent), extent - 1))`. -/
def handle_datachannel_message : DcMsg → Option AdbInput
  | .tap x y =>
    some (.tap ((max 0 (min (pyInt (x * 1280)) (1280 - 1)) : Int) : ℚ)
               ((max 0 (min (pyInt (y * 720)) (720 - 1)) : Int) : ℚ))
  | .swipe x1 y1 x2 y2 duration =>
    some (.swipe ((max 0 (min (pyInt (x1 * 1280)) (1280 - 1)) : Int) : ℚ)
                 ((max 0 (min (pyInt (y1 * 720)) (720 - 1)) : Int) : ℚ)
                 ((max 0 (min (pyInt (x2 * 1280)) (1280 - 1)) : Int) : ℚ)
                 ((max 0 (min (pyInt (y2 * 720)) (720 - 1)) : Int) : ℚ)
                 duration)
  | .keyevent k => some (.keyevent k)
  | .other => none

/-- Responses of the signaling coordinator. -/
inductive SigResp where
  | answer (sdp : String)
  | error (msg : String)
  | inputAck (success : Bool)
deriving DecidableEq

/-- Handler `_handle_input` with `_send_touch_event`/`_send_key_event`/`_send_text`:
touch coordinates are interpolated into the adb command verbatim — no
normalization, no clamping; an action other than `"tap"` leaves the
command variable unbound, the resulting exception is swallowed inside
`_send_touch_event` and nothing is sent. Always acks. -/
def handle_input : WsInput → Option AdbInput × SigResp
  | .touch x y action =>
    (if action == "tap" then some (.tap x y) else none, .inputAck true)
  | .key k => (some (.keyevent k), .inputAck true)
  | .text t => (some (.text t), .inputAck true)
  | .other => (none, .inputAck true)

/-- Parsed signaling messages; `offer` carries whether its media pipeline
comes up (`_handle_offer` re-raises on failure). -/
inductive SigMsg where
  | offer (transportOk : Bool)
  | iceCandidate
  | input (m : WsInput)
  | unknown (t : String)
deriving DecidableEq

/-- The raw body of `handle_message` before its `try/except`: an
`Except.error` is a Python exception escaping a handler. `ice-candidate`
handling catches internally and returns nothing; unknown types log and
return nothing. -/
def handleRaw : SigMsg → Except String (Option SigResp)
  | .offer true => Except.ok (some (.answer "sdp-answer"))
  | .offer false => Except.error "Both scrcpy and screenrecord failed"
  | .iceCandidate => Except.ok none
  | .input m => Except.ok (some (handle_input m).2)
  | .unknown _ => Except.ok none

/-- Method `WebRTCManager.handle_message`: the surrounding `except Exception`
turns any escaping exception into a `{"type": "error", ...}` response. -/
def handle_message (m : SigMsg) : Option SigResp :=
  match handleRaw m with
  | Except.ok r => r
  | Except.error e => some (.error e)

/-- A frame received on the WebSocket: either text that fails
`json.loads`, or a parsed message. -/
inductive RawMsg where
  | malformed
  | valid (m : SigMsg)
deriving DecidableEq

/-- How the signaling loop of `websocket_endpoint` ends: the client
disconnected, or an exception escaped the loop and the socket was closed
with code 1011. -/
inductive LoopEnd where
  | disconnected
  | closedInternalError
deriving DecidableEq

/-- The `while True` receive loop of `websocket_endpoint`: `json.loads`
failure raises out of the loop into the outer handler, which closes the
socket (code 1011) — the remaining messages are never processed. -/
def ws_loop : List RawMsg → List SigResp × LoopEnd
  | [] => ([], .disconnected)
  | RawMsg.malformed :: _ => ([], .closedInternalError)
  | RawMsg.valid m :: rest =>
    match handle_message m with
    | some r => ((r :: (ws_loop rest).1), (ws_loop rest).2)
    | none => ws_loop rest

/-! ### Claim theorems for the signaling coordinator -/

/-- C8 counterexample: the WebSocket `input` path forwards the normalized
touch coordinate `x = 1/2` verbatim, not the clamped pixel coordinate 640
that conversion against the 1280-wide display would produce. -/
theorem C8_ws_input_path_not_clamped_counterexample :
    handle_input (WsInput.touch (1/2) (1/2) "tap") =
      (some (AdbInput.tap (1/2) (1/2)), SigResp.inputAck true) ∧
    (max 0 (min (pyInt ((1/2 : ℚ) * 1280)) (1280 - 1)) : Int) = 640 ∧
    (1/2 : ℚ) ≠ ((640 : Int) : ℚ) := by
  have hq : ((1/2 : ℚ) * 1280) = 640 := by norm_num
  have h : pyInt ((1/2 : ℚ) * 1280) = 640 := by
    rw [pyInt, hq]
    simp
  refine ⟨rfl, ?_, by norm_num⟩
  rw [h]
  omega

/-- C8 (amended): the DataChannel path clamps tap and swipe coordinates to
the display extents `[0, 1279] × [0, 719]` before forwarding; the
WebSocket `input` path forwards touch coordinates verbatim, without
conversion or clamping. -/
theorem C8_datachannel_clamps_ws_input_does_not :
    (∀ x y : ℚ, ∃ px py : Int,
      handle_datachannel_message (DcMsg.tap x y) =
        some (AdbInput.tap (px : ℚ) (py : ℚ)) ∧
      0 ≤ px ∧ px ≤ 1280 - 1 ∧ 0 ≤ py ∧ py ≤ 720 - 1) ∧
    (∀ x1 y1 x2 y2 d : ℚ, ∃ p1 q1 p2 q2 : Int,
      handle_datachannel_message (DcMsg.swipe x1 y1 x2 y2 d) =
        some (AdbInput.swipe (p1 : ℚ) (q1 : ℚ) (p2 : ℚ) (q2 : ℚ) d) ∧
      0 ≤ p1 ∧ p1 ≤ 1280 - 1 ∧ 0 ≤ q1 ∧ q1 ≤ 720 - 1 ∧
      0 ≤ p2 ∧ p2 ≤ 1280 - 1 ∧ 0 ≤ q2 ∧ q2 ≤ 720 - 1) ∧
    (∀ x y : ℚ, handle_input (WsInput.touch x y "tap") =
      (some (AdbInput.tap x y), SigResp.inputAck true)) := by
  refine ⟨?_, ?_, ?_⟩
  · intro x y
    refine ⟨max 0 (min (pyInt (x * 1280)) (1280 - 1)),
            max 0 (min (pyInt (y * 720)) (720 - 1)), rfl, ?_, ?_, ?_, ?_⟩ <;> omega
  · intro x1 y1 x2 y2 d
    refine ⟨max 0 (min (pyInt (x1 * 1280)) (1280 - 1)),
            max 0 (min (pyInt (y1 * 720)) (720 - 1)),
            max 0 (min (pyInt (x2 * 1280)) (1280 - 1)),
            max 0 (min (pyInt (y2 * 720)) (720 - 1)),
            rfl, ?_, ?_, ?_, ?_, ?_, ?_, ?_, ?_⟩ <;> omega
  · intro x y
    rfl

/-- C9 counterexample: a message that fails JSON parsing escapes the
receive loop — the socket is closed with code 1011 and the following
well-formed message is never processed (alone it would have been acked). -/
theorem C9_malformed_message_kills_loop_counterexample :
    ws_loop [RawMsg.malformed, RawMsg.valid (SigMsg.input WsInput.other)] =
      ([], LoopEnd.closedInternalError) ∧
    (ws_loop [RawMsg.valid (SigMsg.input WsInput.other)]).1 =
      [SigResp.inputAck true] := by
  exact ⟨rfl, rfl⟩

/-- C9 (amended): for messages that parse, handler failures never
terminate the signaling loop: an exception escaping a handler becomes a
typed `{"type": "error"}` response, the loop's final state is unchanged by
the message, and every response of the remaining messages is still
delivered. A message that fails JSON parsing, however, terminates the
loop (socket closed with code 1011). -/
theorem C9_parsed_failures_yield_error_loop_continues
    (m : SigMsg) (rest : List RawMsg) :
    (∀ e, handleRaw m = Except.error e → handle_message m = some (SigResp.error e)) ∧
    (ws_loop (RawMsg.valid m :: rest)).2 = (ws_loop rest).2 ∧
    ∀ r ∈ (ws_loop rest).1, r ∈ (ws_loop (RawMsg.valid m :: rest)).1 := by
  refine ⟨?_, ?_, ?_⟩
  · intro e he
    unfold handle_message
    rw [he]
  · cases h : handle_message m <;> simp [ws_loop, h]
  · intro r hr
    cases h : handle_message m <;> simp [ws_loop, h, hr]

/-- Witness for the amended C9: a failed `offer` produces a typed error
response and the loop goes on to the next message. -/
theorem C9_parsed_failures_yield_error_loop_continues_witness :
    handle_message (SigMsg.offer false) =
      some (SigResp.error "Both scrcpy and screenrecord failed") ∧
    (ws_loop [RawMsg.valid (SigMsg.offer false), RawMsg.valid SigMsg.iceCandidate]).2 =
      (ws_loop [RawMsg.valid SigMsg.iceCandidate]).2 :=
  ⟨(C9_parsed_failures_yield_error_loop_continues (SigMsg.offer false)
      [RawMsg.valid SigMsg.iceCandidate]).1
      "Both scrcpy and screenrecord failed" rfl,
   (C9_parsed_failures_yield_error_loop_continues (SigMsg.offer false)
      [RawMsg.valid SigMsg.iceCandidate]).2.1⟩
